import Mathlib

/-!
Verification of the AegisAI governance/monitoring layer.

Shallow embedding of the Python sources:
- src/model/governance/trust_engine.py   (TrustEngine)
- src/model/monitoring/drift_detector.py (DriftDetector.check_drift severity logic)
- src/model/ml_model.py                  (MLModel._map_risk_category)
- src/model/llm/openrouter_service.py    (calculate_quality_score)

Python floats are modelled as exact rationals (every constant involved is an
exact decimal, and all values compared against thresholds are produced by
finitely many additions/subtractions of such constants, so the real-valued
model is faithful at every comparison in scope).  Database reads are modelled
as explicit inputs: the latest drift log, the latest performance log, the
governance-log collection, and a possible database error raised inside the
try block of calculate_trust_score.  The Python round(x, 2) calls are omitted:
every value they are applied to in scope is an integer number of points, on
which round is the identity.
-/

namespace AegisAI

/-! ## Drift detector (drift_detector.py) -/

/-- Drift log record as assembled by DriftDetector.check_drift (the fields the
trust engine reads, plus the classification inputs). -/
structure DriftRecord where
  feature : String
  drift_detected : Bool
  severity : String
  ks_statistic : ℚ
  p_value : ℚ
  psi_score : ℚ
deriving DecidableEq

/-- DriftDetector.check_drift, lines 102-168: given the KS-test outcome
(ks_drift = p_value below alpha, as returned by ks_test) and the PSI score,
classify severity and build the drift log record. -/
def check_drift (feature : String) (ks_drift : Bool) (ks_stat p_value psi_score : ℚ) :
    DriftRecord :=
  let severity :=
    if psi_score > 1/5 ∨ (ks_drift ∧ ks_stat > 3/10) then "high"
    else if psi_score > 1/10 ∨ ks_drift then "moderate"
    else "low"
  { feature := feature
    drift_detected := ks_drift ∨ psi_score > 1/5
    severity := severity
    ks_statistic := ks_stat
    p_value := p_value
    psi_score := psi_score }

/-! ## Trust engine (trust_engine.py) -/

structure DriftThresholds where
  low : ℚ
  moderate : ℚ
  high : ℚ

structure AccuracyDropThresholds where
  acceptable : ℚ
  concerning : ℚ
  critical : ℚ

structure TrustLevelThresholds where
  autonomous : ℚ
  human_on_loop : ℚ
  approval_required : ℚ
  kill_switch : ℚ

structure PenaltyWeights where
  drift_penalty : ℚ
  accuracy_penalty : ℚ
  bias_penalty : ℚ
  override_penalty : ℚ

structure Thresholds where
  drift : DriftThresholds
  accuracy_drop : AccuracyDropThresholds
  trust_levels : TrustLevelThresholds
  weights : PenaltyWeights

/-- TrustEngine._load_thresholds, lines 46-71. -/
def load_thresholds : Thresholds :=
  { drift := { low := 1/10, moderate := 1/5, high := 3/10 }
    accuracy_drop := { acceptable := 1/50, concerning := 1/20, critical := 1/10 }
    trust_levels :=
      { autonomous := 80, human_on_loop := 60, approval_required := 40, kill_switch := 0 }
    weights :=
      { drift_penalty := 30, accuracy_penalty := 25, bias_penalty := 20,
        override_penalty := 10 } }

/-- TrustEngine._get_drift_severity, lines 155-173: re-derive a severity from
the psi_score of the latest drift log (default "low" when there is none). -/
def get_drift_severity (recent_drift : Option DriftRecord) : String :=
  match recent_drift with
  | none => "low"
  | some rec =>
    if rec.psi_score > load_thresholds.drift.high then "high"
    else if rec.psi_score > load_thresholds.drift.moderate then "moderate"
    else "low"

/-- Model performance record (the accuracy field the trust engine reads; the
field itself may be absent from the stored metrics dict). -/
structure PerformanceRecord where
  accuracy : Option ℚ
deriving DecidableEq

/-- Baseline accuracy hard-coded in _get_accuracy_drop (0.95). -/
def baseline_accuracy : ℚ := 19/20

/-- TrustEngine._get_accuracy_drop, lines 175-191. -/
def get_accuracy_drop (recent_perf : Option PerformanceRecord) : ℚ :=
  match recent_perf with
  | none => 0
  | some perf => max 0 (baseline_accuracy - perf.accuracy.getD baseline_accuracy)

/-- TrustEngine._get_bias_score, lines 193-210: the placeholder constant. -/
def get_bias_score : ℚ := 3/20

/-- Governance log entry (the fields _get_recent_overrides filters on). -/
structure GovernanceLogEntry where
  timestamp : ℚ
  event_type : String
deriving DecidableEq

/-- TrustEngine._get_recent_overrides, lines 212-223: count manual_override
events at or after the 24h cutoff. -/
def get_recent_overrides (logs : List GovernanceLogEntry) (cutoff : ℚ) : ℕ :=
  (logs.filter fun l => cutoff ≤ l.timestamp ∧ l.event_type = "manual_override").length

/-- TrustEngine._calculate_drift_penalty, lines 225-232. -/
def calculate_drift_penalty (severity : String) : ℚ :=
  if severity = "low" then 5
  else if severity = "moderate" then 15
  else if severity = "high" then 30
  else 0

/-- TrustEngine._calculate_accuracy_penalty, lines 234-243. -/
def calculate_accuracy_penalty (drop : ℚ) : ℚ :=
  if drop < load_thresholds.accuracy_drop.acceptable then 0
  else if drop < load_thresholds.accuracy_drop.concerning then 10
  else if drop < load_thresholds.accuracy_drop.critical then 20
  else 25

/-- TrustEngine._determine_autonomy_level, lines 245-256.  Note the returned
string for the second band is hyphenated in the source. -/
def determine_autonomy_level (trust_score : ℚ) : String :=
  if trust_score ≥ load_thresholds.trust_levels.autonomous then "fully_autonomous"
  else if trust_score ≥ load_thresholds.trust_levels.human_on_loop then "human-on-loop"
  else if trust_score ≥ load_thresholds.trust_levels.approval_required then "approval_required"
  else "kill_switch"

/-- TrustEngine._check_alerts, lines 258-285: drift alerts, then accuracy
alerts, then trust-score alerts, in source order. -/
def check_alerts (drift_severity : String) (accuracy_drop trust_score : ℚ) : List String :=
  (if drift_severity = "high" then ["critical_drift"]
   else if drift_severity = "moderate" then ["moderate_drift"]
   else [])
  ++ (if accuracy_drop > load_thresholds.accuracy_drop.critical then ["critical_accuracy_drop"]
      else if accuracy_drop > load_thresholds.accuracy_drop.concerning then ["accuracy_degradation"]
      else [])
  ++ (if trust_score < load_thresholds.trust_levels.approval_required then ["low_trust_score"]
      else if trust_score < load_thresholds.trust_levels.human_on_loop then ["very_low_trust_score"]
      else [])

/-- TrustEngine._determine_governance_action, lines 287-296. -/
def determine_governance_action (trust_score : ℚ) (alerts : List String) : String :=
  if "critical_drift" ∈ alerts ∨ "critical_accuracy_drop" ∈ alerts then "kill_switch"
  else if trust_score < load_thresholds.trust_levels.approval_required then "require_approval"
  else if trust_score < load_thresholds.trust_levels.human_on_loop then "human_review"
  else "none"

/-- Inputs of one calculate_trust_score run: what the database reads return,
plus an error possibly raised inside the try block (modelling a failing
database operation such as the trust_scores insert). -/
structure TrustEnv where
  latest_drift : Option DriftRecord
  latest_performance : Option PerformanceRecord
  governance_logs : List GovernanceLogEntry
  override_cutoff : ℚ
  db_error : Option String

/-- Successful result dict of calculate_trust_score (the governed fields). -/
structure TrustResult where
  trust_score : ℚ
  autonomy_level : String
  drift_penalty : ℚ
  accuracy_penalty : ℚ
  bias_penalty : ℚ
  override_penalty : ℚ
  drift_severity : String
  accuracy_drop : ℚ
  bias_score : ℚ
  manual_overrides_count : ℕ
  alerts_triggered : List String
  governance_action : String
deriving DecidableEq

/-- Outcome of calculate_trust_score: the normal result dict, or the degraded
dict built in the except branch (lines 145-153). -/
inductive TrustOutcome where
  | ok (r : TrustResult)
  | degraded (trust_score : ℚ) (autonomy_level : String) (error : String)
      (governance_action : String)
deriving DecidableEq

/-- Result dict built by the try block of calculate_trust_score, lines 82-133
(the computation up to and excluding the database insert). -/
def trust_result_of (env : TrustEnv) : TrustResult :=
  let drift_severity := get_drift_severity env.latest_drift
  let accuracy_drop := get_accuracy_drop env.latest_performance
  let bias_score := get_bias_score
  let manual_overrides := get_recent_overrides env.governance_logs env.override_cutoff
  let drift_penalty := calculate_drift_penalty drift_severity
  let accuracy_penalty := calculate_accuracy_penalty accuracy_drop
  let bias_penalty := bias_score * load_thresholds.weights.bias_penalty
  let override_penalty := (manual_overrides : ℚ) * load_thresholds.weights.override_penalty
  let trust_score :=
    max 0 (min 100 (100 - drift_penalty - accuracy_penalty - bias_penalty - override_penalty))
  let autonomy_level := determine_autonomy_level trust_score
  let alerts := check_alerts drift_severity accuracy_drop trust_score
  let governance_action := determine_governance_action trust_score alerts
  { trust_score := trust_score
    autonomy_level := autonomy_level
    drift_penalty := drift_penalty
    accuracy_penalty := accuracy_penalty
    bias_penalty := bias_penalty
    override_penalty := override_penalty
    drift_severity := drift_severity
    accuracy_drop := accuracy_drop
    bias_score := bias_score
    manual_overrides_count := manual_overrides
    alerts_triggered := alerts
    governance_action := governance_action }

/-- TrustEngine.calculate_trust_score, lines 73-153: the try block computes the
result dict and inserts it into the database; any exception raised inside the
try block lands in the except branch of lines 145-153, which returns the
degraded dict instead. -/
def calculate_trust_score (env : TrustEnv) : TrustOutcome :=
  match env.db_error with
  | some e => TrustOutcome.degraded 0 "kill_switch" e "kill_switch"
  | none => TrustOutcome.ok (trust_result_of env)

/-! ## ML model wrapper (ml_model.py) -/

/-- MLModel._map_risk_category, lines 129-149 (RiskCategory values from
schemas.py: "Low", "Medium", "High"). -/
def map_risk_category (approval_probability : ℚ) : String :=
  if approval_probability > 7/10 then "Low"
  else if approval_probability ≥ 3/10 then "Medium"
  else "High"

/-! ## Incident store (trust_engine.py, simulate_drift_incident / resolve_incident) -/

/-- Incident document, with the fields written by simulate_drift_incident,
lines 479-496.  Timestamps are modelled as rationals. -/
structure Incident where
  incident_id : String
  severity : String
  type : String
  detected_at : ℚ
  resolved_at : Option ℚ
  status : String
  description : String
  affected_features : List String
  actions_taken : List String
  resolution_notes : Option String
deriving DecidableEq

/-- Field update applied by the Mongo update_one in resolve_incident,
lines 524-533: set status, resolved_at and resolution_notes. -/
def set_resolution (i : Incident) (now : ℚ) (notes : String) : Incident :=
  { i with status := "resolved", resolved_at := some now, resolution_notes := some notes }

/-- Mongo update_one on the incidents collection with filter incident_id:
apply set_resolution to the first matching document; also return
modified_count (1 when a document matched and actually changed, else 0). -/
def update_one_set_resolved :
    List Incident → String → ℚ → String → List Incident × ℕ
  | [], _, _, _ => ([], 0)
  | i :: rest, iid, now, notes =>
    if i.incident_id = iid then
      let i2 := set_resolution i now notes
      (i2 :: rest, if i2 = i then 0 else 1)
    else
      let p := update_one_set_resolved rest iid now notes
      (i :: p.1, p.2)

/-- Return value of resolve_incident: the refreshed incident document, or the
error dict. -/
inductive ResolveOutcome where
  | resolved (incident : Incident)
  | failure (msg : String)
deriving DecidableEq

/-- TrustEngine.resolve_incident, lines 512-546: run update_one on the store;
if modified_count is positive, re-read the (first) matching incident and
return it, otherwise return the not-found error.  The returned pair is the
store after the call together with the returned value. -/
def resolve_incident (store : List Incident) (incident_id resolution_notes : String)
    (now : ℚ) : List Incident × ResolveOutcome :=
  let p := update_one_set_resolved store incident_id now resolution_notes
  if p.2 > 0 then
    match p.1.find? (fun i => i.incident_id = incident_id) with
    | some i => (p.1, ResolveOutcome.resolved i)
    | none => (p.1, ResolveOutcome.failure "Incident not found")
  else (p.1, ResolveOutcome.failure "Incident not found")

/-! ## LLM quality heuristics (openrouter_service.py)

Python strings are modelled through their character lists.  str.isupper on a
single character and str.lower are modelled at the ASCII level (every keyword
and threshold involved is ASCII). -/

/-- Python whitespace (str.isspace, the set str.strip removes): the ASCII
controls 0x09-0x0d, the separators 0x1c-0x1f, space, and the Unicode
whitespace code points 0x85, 0xa0, 0x1680, 0x2000-0x200a, 0x2028, 0x2029,
0x202f, 0x205f and 0x3000. -/
def py_is_space (c : Char) : Bool :=
  decide ((0x09 ≤ c.toNat ∧ c.toNat ≤ 0x0d) ∨ (0x1c ≤ c.toNat ∧ c.toNat ≤ 0x1f) ∨
    c.toNat = 0x20 ∨ c.toNat = 0x85 ∨ c.toNat = 0xa0 ∨ c.toNat = 0x1680 ∨
    (0x2000 ≤ c.toNat ∧ c.toNat ≤ 0x200a) ∨ c.toNat = 0x2028 ∨ c.toNat = 0x2029 ∨
    c.toNat = 0x202f ∨ c.toNat = 0x205f ∨ c.toNat = 0x3000)

/-- Python str.strip: drop leading and trailing whitespace. -/
def py_strip (cs : List Char) : List Char :=
  ((cs.dropWhile py_is_space).reverse.dropWhile py_is_space).reverse

/-- Python str.count for a single character. -/
def count_char (cs : List Char) (c : Char) : ℕ := (cs.filter (· = c)).length

/-- Python str.lower, as a character list. -/
def py_lower (s : String) : List Char := s.data.map Char.toLower

/-- Word character of the regex character-class w: alphanumeric or
underscore. -/
def is_word_char (c : Char) : Bool := c.isAlphanum || c = '_'

/-- Maximal runs of word characters (re.findall of the word pattern); acc
holds the current run reversed. -/
def words_aux : List Char → List Char → List (List Char)
  | [], acc => if acc.isEmpty then [] else [acc.reverse]
  | c :: rest, acc =>
    if is_word_char c then words_aux rest (c :: acc)
    else if acc.isEmpty then words_aux rest []
    else acc.reverse :: words_aux rest []

/-- Python set(re.findall(word pattern, s.lower())). -/
def word_set (s : String) : Finset (List Char) := (words_aux (py_lower s) []).toFinset

/-- Stop-word set removed before the overlap computation, lines 191-193. -/
def common_words : Finset (List Char) :=
  (["the", "a", "an", "and", "or", "but", "in", "on", "at", "to", "for", "of",
    "with", "is", "are", "was", "were"].map String.data).toFinset

/-- Python substring containment (the in operator on str). -/
def is_substring : List Char → List Char → Bool
  | needle, [] => needle.isEmpty
  | needle, c :: rest => needle.isPrefixOf (c :: rest) || is_substring needle rest

/-- Professional-tone keywords, line 203. -/
def professional_indicators : List String :=
  ["please", "thank you", "contact", "information", "service", "account"]

/-- OpenRouterLLMService.calculate_quality_score, lines 156-208.  The two
indexing operations of the source, response[0] and response.strip()[-1],
raise IndexError (message "string index out of range") on an empty string;
they are the only partial operations in the body. -/
def calculate_quality_score (response prompt : String) : Except String ℚ :=
  let score0 : ℚ := 1
  let response_length := response.data.length
  let score1 :=
    if response_length < 50 then score0 - 3/10
    else if response_length > 1500 then score0 - 3/20
    else score0
  let sentences :=
    count_char response.data '.' + count_char response.data '!' + count_char response.data '?'
  let score2 := if sentences < 2 then score1 - 1/5 else score1
  if response.data = [] then Except.error "string index out of range"
  else
    let score3 := if ¬(response.data.headD 'a').isUpper then score2 - 1/10 else score2
    let stripped := py_strip response.data
    if stripped = [] then Except.error "string index out of range"
    else
      let last := stripped.getLastD 'a'
      let score4 := if ¬(last = '.' ∨ last = '!' ∨ last = '?') then score3 - 1/10 else score3
      let prompt_words := word_set prompt \ common_words
      let response_words := word_set response \ common_words
      let score5 :=
        if 0 < prompt_words.card then
          let overlap : ℚ := ((prompt_words ∩ response_words).card : ℚ) / (prompt_words.card : ℚ)
          if overlap < 1/5 then score4 - 3/10
          else if overlap < 2/5 then score4 - 1/10
          else score4
        else score4
      let professional_count :=
        (professional_indicators.filter fun w => is_substring w.data (py_lower response)).length
      let score6 := if professional_count = 0 then score5 - 1/10 else score5
      Except.ok (max 0 (min 1 score6))

/-- Ordering of severity labels, for comparing the two drift classifiers:
low is 0, moderate is 1, high is 2. -/
def severity_rank (s : String) : ℕ :=
  if s = "high" then 2 else if s = "moderate" then 1 else 0

/-! ## Concrete inputs used by witnesses -/

/-- Environment with high drift, a large accuracy drop and ten recent manual
overrides: the penalty sum 30 + 25 + 3 + 100 exceeds 100. -/
def c1_env : TrustEnv :=
  { latest_drift := some (check_drift "income" true (9/20) (1/1000) (7/20))
    latest_performance := some { accuracy := some (4/5) }
    governance_logs := List.replicate 10 { timestamp := 1, event_type := "manual_override" }
    override_cutoff := 0
    db_error := none }

/-- Result of calculate_trust_score on c1_env. -/
def c1_result : TrustResult :=
  ⟨0, "kill_switch", 30, 25, 3, 100, "high", 3/20, 3/20, 10,
   ["critical_drift", "critical_accuracy_drop", "low_trust_score"], "kill_switch"⟩

/-- Environment whose only signal is a high-drift log (psi 0.35). -/
def c4_env : TrustEnv :=
  { latest_drift := some (check_drift "income" false 0 1 (7/20))
    latest_performance := none
    governance_logs := []
    override_cutoff := 0
    db_error := none }

/-- Result of calculate_trust_score on c4_env. -/
def c4_result : TrustResult :=
  ⟨67, "human-on-loop", 30, 0, 3, 0, "high", 0, 3/20, 0, ["critical_drift"], "kill_switch"⟩

/-- Quiet environment: no drift log, no performance log, no overrides. -/
def c7_env : TrustEnv :=
  { latest_drift := none
    latest_performance := none
    governance_logs := []
    override_cutoff := 0
    db_error := none }

/-- Result of calculate_trust_score on c7_env. -/
def c7_result : TrustResult :=
  ⟨92, "fully_autonomous", 5, 0, 3, 0, "low", 0, 3/20, 0, [], "none"⟩

/-- Open incident in the shape written by simulate_drift_incident. -/
def inc_a : Incident :=
  { incident_id := "INC-1", severity := "high", type := "data_drift", detected_at := 1,
    resolved_at := none, status := "open", description := "Income feature drift",
    affected_features := ["income"],
    actions_taken := ["reduced_autonomy", "notification_sent"], resolution_notes := none }

/-- Second open incident, distinct id. -/
def inc_b : Incident :=
  { incident_id := "INC-2", severity := "high", type := "data_drift", detected_at := 2,
    resolved_at := none, status := "open", description := "Age feature drift",
    affected_features := ["age"],
    actions_taken := ["notification_sent"], resolution_notes := none }

/-! ## Theorems -/

/-- Outcome characterization of calculate_trust_score: a normal result is
produced exactly when no exception interrupts the try block, and then it is
the computed result dict. -/
theorem calculate_trust_score_ok_iff (env : TrustEnv) (r : TrustResult) :
    calculate_trust_score env = TrustOutcome.ok r ↔
      env.db_error = none ∧ r = trust_result_of env := by
  unfold calculate_trust_score
  cases h : env.db_error <;> simp [eq_comm]

/-- C1: for every combination of inputs read by calculate_trust_score, the
trust score of the result equals 100 minus the drift, accuracy, bias and
override penalties, clamped to the interval 0 to 100; the clamp bounds hold
for every penalty combination, including sums above 100. -/
theorem trust_score_formula_and_clamp (env : TrustEnv) (r : TrustResult)
    (h : calculate_trust_score env = TrustOutcome.ok r) :
    r.trust_score = max 0 (min 100
        (100 - calculate_drift_penalty (get_drift_severity env.latest_drift)
          - calculate_accuracy_penalty (get_accuracy_drop env.latest_performance)
          - get_bias_score * load_thresholds.weights.bias_penalty
          - (get_recent_overrides env.governance_logs env.override_cutoff : ℚ)
              * load_thresholds.weights.override_penalty))
      ∧ 0 ≤ r.trust_score ∧ r.trust_score ≤ 100 := by
  obtain ⟨-, rfl⟩ := (calculate_trust_score_ok_iff env r).mp h
  exact ⟨rfl, le_max_left _ _, max_le (by norm_num) (min_le_left _ _)⟩

/-- Witness for C1 at c1_env: the penalty sum is 158, above 100, and the
clamped trust score is 0. -/
theorem trust_score_formula_and_clamp_witness :
    calculate_trust_score c1_env = TrustOutcome.ok c1_result ∧
    100 < c1_result.drift_penalty + c1_result.accuracy_penalty + c1_result.bias_penalty
        + c1_result.override_penalty ∧
    c1_result.trust_score = 0 ∧ 0 ≤ c1_result.trust_score ∧ c1_result.trust_score ≤ 100 := by
  have h : calculate_trust_score c1_env = TrustOutcome.ok c1_result := by
    have h1 : get_drift_severity c1_env.latest_drift = "high" := by
      norm_num [c1_env, get_drift_severity, check_drift, load_thresholds]
    have h2 : get_accuracy_drop c1_env.latest_performance = 3/20 := by
      norm_num [c1_env, get_accuracy_drop, baseline_accuracy]
    have h3 : get_recent_overrides c1_env.governance_logs c1_env.override_cutoff = 10 := by
      decide
    have h4 : c1_env.db_error = none := rfl
    simp only [calculate_trust_score, trust_result_of, h1, h2, h3, h4]
    have h5 : calculate_drift_penalty "high" = 30 := by decide
    have h6 : calculate_accuracy_penalty (3/20) = 25 := by
      norm_num [calculate_accuracy_penalty, load_thresholds]
    simp only [h5, h6, get_bias_score, load_thresholds]
    norm_num [c1_result, determine_autonomy_level, check_alerts,
      determine_governance_action, load_thresholds]
  have hb := trust_score_formula_and_clamp c1_env c1_result h
  exact ⟨h, by norm_num [c1_result], rfl, hb.2.1, hb.2.2⟩

/-- Counterexample for C2: at trust score 60 the autonomy level returned by the
code is the hyphenated string, not the underscored label of the claim. -/
theorem autonomy_level_60_counterexample :
    determine_autonomy_level 60 = "human-on-loop" ∧
      determine_autonomy_level 60 ≠ "human_on_loop" := by decide

/-- C2 (amended): the autonomy level is decided by the fixed thresholds
80, 60 and 40, with the second band returned as the hyphenated string
"human-on-loop" rather than "human_on_loop". -/
theorem autonomy_level_thresholds (s : ℚ) :
    (s ≥ 80 → determine_autonomy_level s = "fully_autonomous") ∧
    (60 ≤ s → s < 80 → determine_autonomy_level s = "human-on-loop") ∧
    (40 ≤ s → s < 60 → determine_autonomy_level s = "approval_required") ∧
    (s < 40 → determine_autonomy_level s = "kill_switch") := by
  refine ⟨fun h1 => ?_, fun h1 h2 => ?_, fun h1 h2 => ?_, fun h1 => ?_⟩ <;>
    · unfold determine_autonomy_level load_thresholds
      split_ifs with a b c <;> first | rfl | (exfalso; simp_all; linarith)

/-- Witness for C2 at the boundary scores 80, 60, 40 and 0. -/
theorem autonomy_level_thresholds_witness :
    determine_autonomy_level 80 = "fully_autonomous" ∧
    determine_autonomy_level 60 = "human-on-loop" ∧
    determine_autonomy_level 40 = "approval_required" ∧
    determine_autonomy_level 0 = "kill_switch" :=
  ⟨(autonomy_level_thresholds 80).1 (by norm_num),
   (autonomy_level_thresholds 60).2.1 (by norm_num) (by norm_num),
   (autonomy_level_thresholds 40).2.2.1 (by norm_num) (by norm_num),
   (autonomy_level_thresholds 0).2.2.2 (by norm_num)⟩

/-- C3: risk categories are decided by the fixed thresholds 0.7 and 0.3,
with both boundary values mapping to Medium. -/
theorem map_risk_category_thresholds (p : ℚ) :
    (p > 7/10 → map_risk_category p = "Low") ∧
    (3/10 ≤ p → p ≤ 7/10 → map_risk_category p = "Medium") ∧
    (p < 3/10 → map_risk_category p = "High") := by
  refine ⟨fun h1 => ?_, fun h1 h2 => ?_, fun h1 => ?_⟩ <;>
    · unfold map_risk_category
      split_ifs with a b <;> first | rfl | (exfalso; linarith)

/-- Witness for C3 at the probabilities 0.75, 0.5 and 0.2. -/
theorem map_risk_category_thresholds_witness :
    map_risk_category (3/4) = "Low" ∧ map_risk_category (1/2) = "Medium" ∧
      map_risk_category (1/5) = "High" :=
  ⟨(map_risk_category_thresholds (3/4)).1 (by norm_num),
   (map_risk_category_thresholds (1/2)).2.1 (by norm_num) (by norm_num),
   (map_risk_category_thresholds (1/5)).2.2 (by norm_num)⟩

/-- C6: an exception raised inside the try block of calculate_trust_score is
not propagated; the degraded dict with trust score 0, autonomy level
kill_switch and governance action kill_switch is returned. -/
theorem trust_error_returns_degraded (env : TrustEnv) (e : String)
    (h : env.db_error = some e) :
    calculate_trust_score env =
      TrustOutcome.degraded 0 "kill_switch" e "kill_switch" := by
  unfold calculate_trust_score
  rw [h]

/-- Witness for C6 with a failing database insert. -/
theorem trust_error_returns_degraded_witness :
    calculate_trust_score
        { latest_drift := none, latest_performance := none, governance_logs := [],
          override_cutoff := 0, db_error := some "insert failed" } =
      TrustOutcome.degraded 0 "kill_switch" "insert failed" "kill_switch" :=
  trust_error_returns_degraded _ "insert failed" rfl

/-- C7: the bias score is the constant placeholder 0.15, so every successful
trust computation carries a bias penalty of exactly 0.15 times 20, that is 3
points. -/
theorem bias_score_constant_three_points (env : TrustEnv) (r : TrustResult)
    (h : calculate_trust_score env = TrustOutcome.ok r) :
    get_bias_score = 3/20 ∧ r.bias_score = 3/20 ∧ r.bias_penalty = 3 := by
  obtain ⟨-, rfl⟩ := (calculate_trust_score_ok_iff env r).mp h
  refine ⟨rfl, rfl, ?_⟩
  show get_bias_score * load_thresholds.weights.bias_penalty = 3
  norm_num [get_bias_score, load_thresholds]

/-- Witness for C7 on the quiet environment c7_env. -/
theorem bias_score_constant_three_points_witness :
    calculate_trust_score c7_env = TrustOutcome.ok c7_result ∧
      c7_result.bias_penalty = 3 := by
  have h : calculate_trust_score c7_env = TrustOutcome.ok c7_result := by
    refine (calculate_trust_score_ok_iff _ _).mpr ⟨rfl, ?_⟩
    norm_num [c7_result, trust_result_of, c7_env, get_drift_severity, get_accuracy_drop,
      get_bias_score, get_recent_overrides, calculate_drift_penalty,
      calculate_accuracy_penalty, determine_autonomy_level, check_alerts,
      determine_governance_action, load_thresholds, baseline_accuracy,
      TrustResult.mk.injEq, min_def, max_def]
    split_ifs <;> simp_all [String.reduceEq]
  exact ⟨h, (bias_score_constant_three_points c7_env c7_result h).2.2⟩

/-- Membership characterization of the alert list built by _check_alerts. -/
theorem mem_check_alerts (sev : String) (drop t : ℚ) (x : String) :
    x ∈ check_alerts sev drop t ↔
      (x = "critical_drift" ∧ sev = "high") ∨
      (x = "moderate_drift" ∧ ¬sev = "high" ∧ sev = "moderate") ∨
      (x = "critical_accuracy_drop" ∧ drop > 1/10) ∨
      (x = "accuracy_degradation" ∧ ¬drop > 1/10 ∧ drop > 1/20) ∨
      (x = "low_trust_score" ∧ t < 40) ∨
      (x = "very_low_trust_score" ∧ ¬t < 40 ∧ t < 60) := by
  unfold check_alerts load_thresholds
  split_ifs with h1 h2 h3 h4 h5 h6 <;>
    simp_all only [List.mem_append, List.mem_cons, List.not_mem_nil, List.mem_singleton,
      or_false, false_or, and_true, true_and, and_false, false_and, not_false_eq_true,
      not_true_eq_false, eq_self_iff_true, String.reduceEq] <;>
    tauto

/-- C10: the label low_trust_score is attached exactly to trust scores
strictly below 40, and very_low_trust_score exactly to scores in the interval
from 40 inclusive to 60 exclusive; hence neither trust-score alert fires at 60
or above. -/
theorem trust_score_alert_labels (sev : String) (drop t : ℚ) :
    ("low_trust_score" ∈ check_alerts sev drop t ↔ t < 40) ∧
    ("very_low_trust_score" ∈ check_alerts sev drop t ↔ 40 ≤ t ∧ t < 60) := by
  constructor
  · rw [mem_check_alerts]
    simp [String.reduceEq]
  · rw [mem_check_alerts]
    simp [String.reduceEq, not_lt]

/-- Witness for C10 at trust scores 30 and 50. -/
theorem trust_score_alert_labels_witness :
    "low_trust_score" ∈ check_alerts "low" 0 30 ∧
      "very_low_trust_score" ∈ check_alerts "low" 0 50 :=
  ⟨(trust_score_alert_labels "low" 0 30).1.mpr (by norm_num),
   (trust_score_alert_labels "low" 0 50).2.mpr (by norm_num)⟩

/-- Governance action as a function of drift severity, accuracy drop and
trust score: kill_switch exactly under a critical_drift or
critical_accuracy_drop alert, then the trust-score bands. -/
theorem governance_action_of_alerts (sev : String) (drop t : ℚ) :
    determine_governance_action t (check_alerts sev drop t) =
      (if sev = "high" ∨ drop > 1/10 then "kill_switch"
       else if t < 40 then "require_approval"
       else if t < 60 then "human_review"
       else "none") := by
  have hc : ("critical_drift" ∈ check_alerts sev drop t ∨
      "critical_accuracy_drop" ∈ check_alerts sev drop t) ↔ (sev = "high" ∨ drop > 1/10) := by
    rw [mem_check_alerts, mem_check_alerts]
    simp [String.reduceEq]
  unfold determine_governance_action
  by_cases h : sev = "high" ∨ drop > 1/10
  · rw [if_pos (hc.mpr h), if_pos h]
  · rw [if_neg (fun hx => h (hc.mp hx)), if_neg h]
    norm_num [load_thresholds]

/-- C4: the governance action of a successful trust computation is kill_switch
exactly when the drift severity is high or the accuracy drop exceeds the
critical threshold 0.10; otherwise require_approval below trust 40,
human_review below 60, and none at 60 or above. -/
theorem governance_action_spec (env : TrustEnv) (r : TrustResult)
    (h : calculate_trust_score env = TrustOutcome.ok r) :
    r.governance_action =
      (if get_drift_severity env.latest_drift = "high"
          ∨ get_accuracy_drop env.latest_performance > 1/10 then "kill_switch"
       else if r.trust_score < 40 then "require_approval"
       else if r.trust_score < 60 then "human_review"
       else "none") := by
  obtain ⟨-, rfl⟩ := (calculate_trust_score_ok_iff env r).mp h
  exact governance_action_of_alerts _ _ _

/-- Witness for C4 on c4_env: high drift forces the kill_switch action even
though the trust score 67 is above 60. -/
theorem governance_action_spec_witness :
    calculate_trust_score c4_env = TrustOutcome.ok c4_result ∧
      c4_result.governance_action = "kill_switch" ∧ c4_result.trust_score = 67 := by
  have h : calculate_trust_score c4_env = TrustOutcome.ok c4_result := by
    refine (calculate_trust_score_ok_iff _ _).mpr ⟨rfl, ?_⟩
    norm_num [c4_result, trust_result_of, c4_env, get_drift_severity, get_accuracy_drop,
      get_bias_score, get_recent_overrides, calculate_drift_penalty,
      calculate_accuracy_penalty, determine_autonomy_level, check_alerts,
      determine_governance_action, check_drift, load_thresholds, baseline_accuracy,
      TrustResult.mk.injEq, min_def, max_def]
    split_ifs <;> simp_all [String.reduceEq] <;> linarith
  refine ⟨h, ?_, rfl⟩
  rw [governance_action_spec c4_env c4_result h]
  norm_num [c4_env, get_drift_severity, check_drift, load_thresholds]

/-- Counterexample for C5: for psi_score 0.25 with no KS drift, check_drift
stores severity "high" (cutoff: psi above 0.2), while _get_drift_severity
re-derives "moderate" from the same record (cutoff: psi above 0.3). -/
theorem drift_severity_mismatch_counterexample :
    (check_drift "income" false 0 1 (1/4)).severity = "high" ∧
      get_drift_severity (some (check_drift "income" false 0 1 (1/4))) = "moderate" := by
  constructor
  · norm_num [check_drift]
  · norm_num [get_drift_severity, check_drift, load_thresholds]

/-- C5 (amended): the two classifiers use different cutoff sets (check_drift:
high for psi above 0.2 or a KS hit above 0.3, moderate for psi above 0.1 or
any KS hit; _get_drift_severity: high above 0.3, moderate above 0.2 on psi
alone), so the severity the trust engine re-derives from a stored record is
never more severe than the stored severity, and can be strictly less
severe. -/
theorem drift_severity_rederived_le (feature : String) (ks_drift : Bool)
    (ks_stat p_value psi : ℚ) :
    severity_rank
        (get_drift_severity (some (check_drift feature ks_drift ks_stat p_value psi)))
      ≤ severity_rank ((check_drift feature ks_drift ks_stat p_value psi).severity) := by
  have hs : (check_drift feature ks_drift ks_stat p_value psi).severity =
      (if psi > 1/5 ∨ (ks_drift ∧ ks_stat > 3/10) then "high"
       else if psi > 1/10 ∨ ks_drift then "moderate" else "low") := rfl
  have hg : get_drift_severity (some (check_drift feature ks_drift ks_stat p_value psi)) =
      (if psi > 3/10 then "high" else if psi > 1/5 then "moderate" else "low") := rfl
  rw [hs, hg]
  by_cases h1 : psi > 3/10
  · rw [if_pos h1, if_pos (Or.inl (show psi > 1/5 by linarith))]
  · rw [if_neg h1]
    by_cases h2 : psi > 1/5
    · rw [if_pos h2, if_pos (Or.inl h2)]
      decide
    · rw [if_neg h2]
      have h0 : severity_rank "low" = 0 := rfl
      rw [h0]
      exact Nat.zero_le _

/-- When no incident matches the filter, the Mongo update matches nothing:
the store is returned unchanged with modified_count 0. -/
theorem update_one_no_match (store : List Incident) (iid notes : String) (now : ℚ)
    (h : ∀ i ∈ store, i.incident_id ≠ iid) :
    update_one_set_resolved store iid now notes = (store, 0) := by
  induction store with
  | nil => rfl
  | cons i rest ih =>
    have hi : i.incident_id ≠ iid := h i (List.mem_cons_self i rest)
    have hrest := ih fun j hj => h j (List.mem_cons_of_mem i hj)
    unfold update_one_set_resolved
    rw [if_neg hi]
    simp only [hrest]

/-- The Mongo update rewrites exactly the first matching document. -/
theorem update_one_first_match (pre : List Incident) (i : Incident) (post : List Incident)
    (iid notes : String) (now : ℚ)
    (hpre : ∀ j ∈ pre, j.incident_id ≠ iid) (hi : i.incident_id = iid) :
    (update_one_set_resolved (pre ++ i :: post) iid now notes).1 =
      pre ++ set_resolution i now notes :: post := by
  induction pre with
  | nil =>
    simp only [List.nil_append]
    unfold update_one_set_resolved
    rw [if_pos hi]
  | cons j pre' ih =>
    have hj : j.incident_id ≠ iid := hpre j (List.mem_cons_self j pre')
    have ih' := ih fun k hk => hpre k (List.mem_cons_of_mem j hk)
    simp only [List.cons_append]
    unfold update_one_set_resolved
    rw [if_neg hj]
    simp only [ih']

/-- The store after resolve_incident is always the store after the update
call, whichever branch builds the return value. -/
theorem resolve_incident_fst (store : List Incident) (iid notes : String) (now : ℚ) :
    (resolve_incident store iid notes now).1 =
      (update_one_set_resolved store iid now notes).1 := by
  simp only [resolve_incident]
  split
  · split <;> rfl
  · rfl

/-- C8: resolving an incident mutates only the first matching incident and
only in its resolution fields.  Part one: with no matching incident the store
is unchanged and the not-found error is returned.  Part two: when the store
splits as pre, the first match i, and post, the new store replaces i by its
resolved copy and keeps everything else.  Part three: the resolved copy
changes exactly status, resolved_at and resolution_notes. -/
theorem resolve_incident_spec (store : List Incident) (iid notes : String) (now : ℚ) :
    ((∀ i ∈ store, i.incident_id ≠ iid) →
      (resolve_incident store iid notes now).1 = store ∧
        (resolve_incident store iid notes now).2 =
          ResolveOutcome.failure "Incident not found") ∧
    (∀ pre i post, store = pre ++ i :: post → (∀ j ∈ pre, j.incident_id ≠ iid) →
      i.incident_id = iid →
        (resolve_incident store iid notes now).1 =
          pre ++ set_resolution i now notes :: post) ∧
    (∀ i : Incident,
      (set_resolution i now notes).incident_id = i.incident_id ∧
      (set_resolution i now notes).severity = i.severity ∧
      (set_resolution i now notes).type = i.type ∧
      (set_resolution i now notes).detected_at = i.detected_at ∧
      (set_resolution i now notes).description = i.description ∧
      (set_resolution i now notes).affected_features = i.affected_features ∧
      (set_resolution i now notes).actions_taken = i.actions_taken ∧
      (set_resolution i now notes).status = "resolved" ∧
      (set_resolution i now notes).resolved_at = some now ∧
      (set_resolution i now notes).resolution_notes = some notes) := by
  refine ⟨fun hno => ?_, fun pre i post hsplit hpre hi => ?_, fun i => ?_⟩
  · have hu := update_one_no_match store iid notes now hno
    unfold resolve_incident
    simp [hu]
  · calc (resolve_incident store iid notes now).1
        = (update_one_set_resolved store iid now notes).1 :=
          resolve_incident_fst store iid notes now
      _ = pre ++ set_resolution i now notes :: post := by
          rw [hsplit]
          exact update_one_first_match pre i post iid notes now hpre hi
  · exact ⟨rfl, rfl, rfl, rfl, rfl, rfl, rfl, rfl, rfl, rfl⟩

/-- Witness for C8: resolving INC-2 in a two-incident store rewrites exactly
that incident; resolving an unknown id leaves the store unchanged and returns
the error. -/
theorem resolve_incident_spec_witness :
    (resolve_incident [inc_a, inc_b] "INC-2" "retrained model" 5).1 =
        [inc_a, set_resolution inc_b 5 "retrained model"] ∧
    (resolve_incident [inc_a, inc_b] "INC-0" "x" 5).1 = [inc_a, inc_b] ∧
    (resolve_incident [inc_a, inc_b] "INC-0" "x" 5).2 =
        ResolveOutcome.failure "Incident not found" := by
  have hmatch :=
    (resolve_incident_spec [inc_a, inc_b] "INC-2" "retrained model" 5).2.1
      [inc_a] inc_b [] rfl
      (by
        intro j hj
        simp only [List.mem_singleton] at hj
        subst hj
        decide)
      (by decide)
  have hno :=
    (resolve_incident_spec [inc_a, inc_b] "INC-0" "x" 5).1
      (by
        intro i hi
        simp only [List.mem_cons, List.not_mem_nil, or_false] at hi
        rcases hi with h | h <;> (subst h; decide))
  exact ⟨hmatch, hno.1, hno.2⟩

/-- Counterexample for C9: on the empty response, and on a whitespace-only
response, calculate_quality_score raises IndexError (string index out of
range) instead of returning a score. -/
theorem quality_score_empty_counterexample :
    calculate_quality_score "" "What is my balance" =
        Except.error "string index out of range" ∧
    calculate_quality_score "   " "What is my balance" =
        Except.error "string index out of range" :=
  ⟨rfl, rfl⟩

/-- C9 (amended): calculate_quality_score returns normally with a score in
the interval 0 to 1 for every prompt and every response that contains at
least one non-whitespace character; on the empty response and on
whitespace-only responses it raises IndexError instead. -/
theorem quality_score_total_on_nonblank (prompt response : String) :
    (py_strip response.data = [] →
      calculate_quality_score response prompt =
        Except.error "string index out of range") ∧
    (py_strip response.data ≠ [] →
      ∃ q, calculate_quality_score response prompt = Except.ok q ∧ 0 ≤ q ∧ q ≤ 1) := by
  constructor
  · intro hstrip
    simp only [calculate_quality_score]
    by_cases hempty : response.data = []
    · rw [if_pos hempty]
    · rw [if_neg hempty, if_pos hstrip]
  · intro hstrip
    have hempty : ¬response.data = [] := by
      intro h
      apply hstrip
      rw [h]
      rfl
    simp only [calculate_quality_score]
    rw [if_neg hempty, if_neg hstrip]
    exact ⟨_, rfl, le_max_left _ _, max_le (by norm_num) (min_le_left _ _)⟩

/-- Witness for C9: the empty response and a vertical-tab-only response (a
whitespace character outside the common four) both raise, while a concrete
well-formed response gets a score in bounds. -/
theorem quality_score_total_on_nonblank_witness :
    calculate_quality_score "" "hello" = Except.error "string index out of range" ∧
    calculate_quality_score "\x0b" "hello" = Except.error "string index out of range" ∧
    py_strip ("Please contact service." : String).data ≠ [] ∧
    (∃ q, calculate_quality_score "Please contact service." "contact" = Except.ok q ∧
      0 ≤ q ∧ q ≤ 1) :=
  ⟨(quality_score_total_on_nonblank "hello" "").1 rfl,
   (quality_score_total_on_nonblank "hello" "\x0b").1 (by decide),
   by decide,
   (quality_score_total_on_nonblank "contact" "Please contact service.").2 (by decide)⟩

end AegisAI
